import Mathlib

/-
Shallow embedding of the VS Code client of fluent-bit-lsp:
  src/clients/vscode/src/bootstrap.ts  (bootstrap, getServers, fileExists)
  src/clients/vscode/src/main.ts       (activate, deactivate, activateInlayHints)

The effectful TypeScript functions are modelled as pure functions over an
explicit system state (process environment, platform, home directory,
extension root, and a filesystem-existence oracle), returning both their
result and a record of the observable effects they perform (messages shown,
paths stat-checked, stop calls issued).
-/

/-- The two platform kinds distinguished by the code: process.platform
equal to the string win32, or anything else. -/
inductive Platform where
  | win32
  | other
deriving DecidableEq

/-- Ambient state read by the client code: the process environment as a
partial map from variable names to values, the result of os.homedir, the
platform kind, the extension root directory (context.extensionUri), and an
oracle answering the vscode.workspace.fs.stat existence check for a path. -/
structure SystemState where
  env : String → Option String
  homedir : String
  platform : Platform
  extensionRoot : String
  fileExists : String → Bool

/-- JS String.prototype.startsWith: the receiver begins with the given
search string. Modelled as list-prefix on the character sequence. -/
def jsStartsWith (s pat : String) : Bool :=
  pat.data.isPrefixOf s.data

/-- The environment variable consulted for an explicit server-path
override in getServers. -/
def overrideKey : String := "__FLB_LSP_SERVER_DEBUG"

/-- The verbatim user-facing message shown by getServers when no bundled
binary exists (three concatenated string literals in the source). -/
def errorMessage : String :=
  "Unfortunately we don\x27t ship binaries for your platform yet. " ++
  "Please build and run the server manually from the source code. " ++
  "Or, please create an issue on repository."

/-- The bundled server path: vscode.Uri.joinPath(context.extensionUri,
"server", "fluent-bit-language-server" + ext) where ext is ".exe" on
win32 and "" otherwise. -/
def bundledPath (s : SystemState) : String :=
  let ext := if s.platform = Platform.win32 then ".exe" else ""
  s.extensionRoot ++ "/server/" ++ "fluent-bit-language-server" ++ ext

/-- One run of the resolution logic: the returned path (none models the JS
undefined), the error messages shown, and the paths whose existence was
checked, in order. -/
structure ResolveRun where
  result : Option String
  messages : List String
  statted : List String
deriving DecidableEq

/-- The branch of getServers reached when the override is absent or empty
(JS falsy): compute the bundled path, stat it, and on absence show the
fixed message and return undefined. NOTE: on the success branch
(bundledExists true) the source function falls off its end without a
return statement, so it also evaluates to undefined there. -/
def getServersBundled (s : SystemState) : ResolveRun :=
  let bundled := bundledPath s
  let bundledExists := s.fileExists bundled
  if !bundledExists then
    { result := none, messages := [errorMessage], statted := [bundled] }
  else
    { result := none, messages := [], statted := [bundled] }

/-- getServers from bootstrap.ts: read the override variable; when it is
truthy (present and non-empty) return it, expanding a leading tilde-slash
by os.homedir() + explicitPath.slice(1); otherwise fall through to the
bundled-binary branch. -/
def getServers (s : SystemState) : ResolveRun :=
  match s.env overrideKey with
  | some v =>
    if v = "" then
      getServersBundled s
    else if jsStartsWith v "~/" then
      { result := some (s.homedir ++ v.drop 1), messages := [], statted := [] }
    else
      { result := some v, messages := [], statted := [] }
  | none => getServersBundled s

/-- The tagged resolution result named in the design: a found path, no
binary available, or an invalid override. The code never produces the
InvalidOverride tag. -/
inductive ResolvedServerLocation where
  | Found (path : String)
  | NotAvailable
  | InvalidOverride
deriving DecidableEq

/-- The resolution outcome of a getServers run, in the tagged vocabulary:
a defined path is Found, the JS undefined is NotAvailable. -/
def resolveOutcome (s : SystemState) : ResolvedServerLocation :=
  match (getServers s).result with
  | some p => ResolvedServerLocation.Found p
  | none => ResolvedServerLocation.NotAvailable

/-- The message of the Error thrown by bootstrap when getServers yielded
no path. -/
def bootstrapMessage : String := "fluent-bit-language-server is not available."

/-- bootstrap from bootstrap.ts: await getServers; if the result is falsy
(undefined or the empty string) throw an Error with the fixed message,
otherwise return the path unchanged (the validity check is a TODO in the
source and is not performed). -/
def bootstrap (s : SystemState) : Except String String :=
  match (getServers s).result with
  | none => Except.error bootstrapMessage
  | some p => if p = "" then Except.error bootstrapMessage else Except.ok p

/-
main.ts: activate builds the run profile and the client options, creates
the LanguageClient, and starts it. The command is
process.env.SERVER_PATH || "fluent-bit-language-server"; the run profile
environment is the object spread of process.env followed by the binding
RUST_LOG = "debug"; the document selector is the single filter
(scheme file, language fluent-bit); the watcher glob is the literal below.
-/

/-- The fallback command used when SERVER_PATH is absent or empty. -/
def defaultCommand : String := "fluent-bit-language-server"

/-- The run-profile environment built in activate: the JS object spread of
process.env with the later binding RUST_LOG = "debug"; the later binding
wins for that key, every other key keeps the inherited value. -/
def mergedEnv (env : String → Option String) : String → Option String :=
  fun k => if k = "RUST_LOG" then some "debug" else env k

/-- A document filter of the selector: the optional scheme, language and
glob-pattern components, each constraining matching only when present. -/
structure DocumentFilter where
  scheme : Option String
  language : Option String
  pattern : Option String
deriving DecidableEq

/-- The one filter of the selector: scheme file, language fluent-bit, no
glob-pattern component. -/
def fluentBitFilter : DocumentFilter :=
  { scheme := some "file", language := some "fluent-bit", pattern := none }

/-- The selector registered at session start: exactly the single filter
with scheme file and language fluent-bit (the plaintext and glob-pattern
alternatives in the source are commented out). -/
def documentSelector : List DocumentFilter :=
  [fluentBitFilter]

/-- A text document as seen by selector matching: its URI scheme, its
language identifier, and its filesystem path (for glob patterns). -/
structure TextDocument where
  scheme : String
  languageId : String
  uriPath : String

/-- A filter matches a document when each present component matches; glob
matching of patterns is external library behaviour, passed as an oracle. -/
def filterMatches (glob : String → String → Bool) (f : DocumentFilter)
    (d : TextDocument) : Bool :=
  (match f.scheme with
   | none => true
   | some sc => sc = d.scheme) &&
  (match f.language with
   | none => true
   | some l => l = d.languageId) &&
  (match f.pattern with
   | none => true
   | some p => glob p d.uriPath)

/-- A selector matches a document when some filter of the list does. -/
def selectorMatches (glob : String → String → Bool)
    (sel : List DocumentFilter) (d : TextDocument) : Bool :=
  sel.any (fun f => filterMatches glob f d)

/-- The session configuration activate hands to the LanguageClient: the
command, the run-profile environment (used for both the run and debug
modes), the document selector, and the synchronize watcher glob. -/
structure SessionConfig where
  command : String
  runEnv : String → Option String
  selector : List DocumentFilter
  watchPattern : String

/-- activate from main.ts: unconditionally builds the session
configuration; the command is SERVER_PATH when that variable is truthy
(present and non-empty), else the fallback literal. No resolution step is
consulted. -/
def activate (s : SystemState) : SessionConfig :=
  let command :=
    match s.env "SERVER_PATH" with
    | some v => if v = "" then defaultCommand else v
    | none => defaultCommand
  { command := command
    runEnv := mergedEnv s.env
    selector := documentSelector
    watchPattern := "**/.clientrc" }

/-- deactivate from main.ts, with the module-level client variable passed
explicitly (none models the never-assigned undefined). Returns the value
returned to the host (none models undefined, some c the pending stop of
client c) paired with the list of stop calls issued. -/
def deactivate (client : Option Nat) : Option Nat × List Nat :=
  match client with
  | none => (none, [])
  | some c => (some c, [c])

/-- State of the maybeUpdater of activateInlayHints: the registered hints
provider handle (null when none), whether the update-hints event emitter
has been disposed, and the record of provider handles disposed so far. -/
structure HintsState where
  hintsProvider : Option Nat
  emitterDisposed : Bool
  disposedProviders : List Nat
deriving DecidableEq

/-- dispose of the maybeUpdater: optionally-chained dispose of the current
hints provider, null it out, and dispose the event emitter. -/
def hintsDispose (st : HintsState) : HintsState :=
  { hintsProvider := none
    emitterDisposed := true
    disposedProviders :=
      match st.hintsProvider with
      | some p => st.disposedProviders ++ [p]
      | none => st.disposedProviders }

/-- onConfigChange of the maybeUpdater: calls this.dispose(); the rest of
the handler body only reads the event field of the emitter and registers
nothing. -/
def onConfigChange (st : HintsState) : HintsState :=
  hintsDispose st

/-
Concrete system states used as witnesses and counterexamples.
-/

/-- A state with an empty environment, a non-Windows platform, and no file
present anywhere. -/
def stNoBinary : SystemState :=
  { env := fun _ => none
    homedir := "/home/u"
    platform := Platform.other
    extensionRoot := "/ext"
    fileExists := fun _ => false }

/-- A state with an empty environment, a non-Windows platform, and every
file present, in particular the bundled binary. -/
def stBundledPresent : SystemState :=
  { env := fun _ => none
    homedir := "/home/u"
    platform := Platform.other
    extensionRoot := "/ext"
    fileExists := fun _ => true }

/-- A state whose only environment variable is the override, set to a
plain absolute path. -/
def stOverridePlain : SystemState :=
  { env := fun k => if k = overrideKey then some "/custom/server" else none
    homedir := "/home/u"
    platform := Platform.other
    extensionRoot := "/ext"
    fileExists := fun _ => false }

/-- A state whose only environment variable is the override, set to a
tilde-slash path. -/
def stOverrideTilde : SystemState :=
  { env := fun k => if k = overrideKey then some "~/bin/server" else none
    homedir := "/home/u"
    platform := Platform.other
    extensionRoot := "/ext"
    fileExists := fun _ => false }

/-- A state whose only environment variable is the override, set to the
empty string. -/
def stOverrideEmpty : SystemState :=
  { env := fun k => if k = overrideKey then some "" else none
    homedir := "/home/u"
    platform := Platform.other
    extensionRoot := "/ext"
    fileExists := fun _ => false }

/-- A state whose process environment already carries RUST_LOG = info. -/
def stRustLog : SystemState :=
  { env := fun k => if k = "RUST_LOG" then some "info" else none
    homedir := "/home/u"
    platform := Platform.other
    extensionRoot := "/ext"
    fileExists := fun _ => false }

/-- The state of the system with the override variable erased, all other
facts unchanged. -/
def unsetOverride (s : SystemState) : SystemState :=
  { env := fun k => if k = overrideKey then none else s.env k
    homedir := s.homedir
    platform := s.platform
    extensionRoot := s.extensionRoot
    fileExists := s.fileExists }

/-- A hints-coordinator state with a provider currently registered. -/
def hintsRegistered : HintsState :=
  { hintsProvider := some 0, emitterDisposed := false, disposedProviders := [] }

/-
Helper lemmas.
-/

/-- The character data of an appended string is the appended data. -/
theorem data_append (s t : String) : (s ++ t).data = s.data ++ t.data := by
  cases s
  cases t
  rfl

/-- A string beginning with tilde-slash has the two characters in front. -/
theorem jsStartsWith_tilde {v : String} (h : jsStartsWith v "~/" = true) :
    ∃ t, v.data = '~' :: '/' :: t := by
  unfold jsStartsWith at h
  have hd : ("~/" : String).data = ['~', '/'] := rfl
  rw [hd] at h
  cases hv : v.data with
  | nil => rw [hv] at h; simp [List.isPrefixOf] at h
  | cons a as =>
    cases as with
    | nil => rw [hv] at h; simp [List.isPrefixOf] at h
    | cons b bs =>
      rw [hv] at h
      simp [List.isPrefixOf] at h
      exact ⟨bs, by rw [h.1, h.2]⟩

/-- The bundled branch always yields no path and stats the bundled path. -/
theorem getServersBundled_shape (s : SystemState) :
    (getServersBundled s).result = none ∧
    (getServersBundled s).statted = [bundledPath s] := by
  unfold getServersBundled
  cases h : s.fileExists (bundledPath s) <;> simp [h]

/-- getServers never yields the empty string as a path. -/
theorem getServers_result_ne_empty (s : SystemState) :
    (getServers s).result ≠ some "" := by
  cases hv : s.env overrideKey with
  | none => simp [getServers, hv, (getServersBundled_shape s).1]
  | some v =>
    by_cases hve : v = ""
    · simp [getServers, hv, hve, (getServersBundled_shape s).1]
    · by_cases ht : jsStartsWith v "~/"
      · simp only [getServers, hv, if_neg hve, ht, if_true, Option.some.injEq]
        intro hcontra
        injection hcontra with hc
        have hdata : (s.homedir ++ v.drop 1).data = ("" : String).data :=
          congrArg String.data hc
        rw [data_append] at hdata
        have hnil : (v.drop 1).data = [] :=
          (List.append_eq_nil.mp hdata).2
        obtain ⟨t, htd⟩ := jsStartsWith_tilde ht
        rw [String.data_drop, htd] at hnil
        simp at hnil
      · simp [getServers, hv, hve, ht]

/-
Claim theorems.
-/

/-- Claim C1 (code bug): at the failing input (no override set, bundled
binary present at the conventional path) getServers falls off its end and
yields no path: the outcome is NotAvailable, no message is shown, and
bootstrap then throws, although the spec requires Found of the bundled
path here. -/
theorem bundled_present_still_no_path :
    stBundledPresent.fileExists (bundledPath stBundledPresent) = true ∧
    bundledPath stBundledPresent = "/ext/server/fluent-bit-language-server" ∧
    resolveOutcome stBundledPresent = ResolvedServerLocation.NotAvailable ∧
    (getServers stBundledPresent).messages = [] ∧
    bootstrap stBundledPresent = Except.error bootstrapMessage := by
  refine ⟨rfl, by decide, by decide, by decide, rfl⟩

/-- Claim C3: a non-empty override always wins: the outcome is Found of
the home-expanded value when it begins with tilde-slash and of the value
verbatim otherwise, on every platform and bundled-binary state, with no
existence check performed and no message shown. -/
theorem override_always_wins (s : SystemState) (v : String)
    (hv : s.env overrideKey = some v) (hne : v ≠ "") :
    resolveOutcome s =
      ResolvedServerLocation.Found
        (if jsStartsWith v "~/" then s.homedir ++ v.drop 1 else v) ∧
    (getServers s).statted = [] ∧
    (getServers s).messages = [] := by
  by_cases ht : jsStartsWith v "~/" <;>
    simp [resolveOutcome, getServers, hv, hne, ht]

/-- Witness for claim C3 at the override value of the spec example. -/
theorem override_always_wins_witness :
    stOverrideTilde.env overrideKey = some "~/bin/server" ∧
    resolveOutcome stOverrideTilde =
      ResolvedServerLocation.Found "/home/u/bin/server" := by
  refine ⟨by decide, ?_⟩
  have h := (override_always_wins stOverrideTilde "~/bin/server"
    (by decide) (by decide)).1
  rw [h]
  decide

/-- Claim C5: with no override set and the bundled binary absent, the
outcome is NotAvailable and the fixed verbatim message is shown exactly
once (the resolution function throws nothing: it is total and returns). -/
theorem no_binary_shows_message_once (s : SystemState)
    (h1 : s.env overrideKey = none)
    (h2 : s.fileExists (bundledPath s) = false) :
    resolveOutcome s = ResolvedServerLocation.NotAvailable ∧
    (getServers s).messages = [errorMessage] := by
  simp [resolveOutcome, getServers, getServersBundled, h1, h2]

/-- Witness for claim C5. -/
theorem no_binary_shows_message_once_witness :
    resolveOutcome stNoBinary = ResolvedServerLocation.NotAvailable ∧
    (getServers stNoBinary).messages = [errorMessage] :=
  no_binary_shows_message_once stNoBinary rfl rfl

/-- Claim C10: an override set to the empty string is JS-falsy and is
treated exactly like an unset override: the whole run is the same, the
result is never the empty path, and the bundled-binary check is reached. -/
theorem empty_override_like_unset (s : SystemState)
    (h : s.env overrideKey = some "") :
    getServers s = getServers (unsetOverride s) ∧
    (getServers s).result ≠ some "" ∧
    (getServers s).statted = [bundledPath s] := by
  have e1 : getServers s = getServersBundled s := by
    simp [getServers, h]
  have e2 : getServers (unsetOverride s) = getServersBundled s := by
    simp [getServers, unsetOverride, getServersBundled, bundledPath]
  refine ⟨e1.trans e2.symm, ?_, ?_⟩
  · rw [e1, (getServersBundled_shape s).1]
    simp
  · rw [e1, (getServersBundled_shape s).2]

/-- Witness for claim C10. -/
theorem empty_override_like_unset_witness :
    getServers stOverrideEmpty = getServers (unsetOverride stOverrideEmpty) ∧
    (getServers stOverrideEmpty).statted = [bundledPath stOverrideEmpty] :=
  ⟨(empty_override_like_unset stOverrideEmpty (by decide)).1,
   (empty_override_like_unset stOverrideEmpty (by decide)).2.2⟩

/-- Claim C9: bootstrap throws exactly when resolution yielded no path;
a produced path (always non-empty) is returned unchanged with no further
check, and the thrown error carries the fixed message. -/
theorem bootstrap_error_iff_no_path (s : SystemState) :
    ((∃ e, bootstrap s = Except.error e) ↔ (getServers s).result = none) ∧
    (∀ p, (getServers s).result = some p → bootstrap s = Except.ok p) ∧
    ((getServers s).result = none →
      bootstrap s = Except.error "fluent-bit-language-server is not available.") := by
  have hok : ∀ p, (getServers s).result = some p → bootstrap s = Except.ok p := by
    intro p hp
    have hpne : p ≠ "" := by
      intro he
      exact getServers_result_ne_empty s (he ▸ hp)
    simp only [bootstrap, hp]
    rw [if_neg hpne]
  have herr : (getServers s).result = none →
      bootstrap s = Except.error "fluent-bit-language-server is not available." := by
    intro hp
    unfold bootstrap
    rw [hp]
    rfl
  refine ⟨⟨?_, ?_⟩, hok, herr⟩
  · rintro ⟨e, he⟩
    cases hr : (getServers s).result with
    | none => rfl
    | some p =>
      rw [hok p hr] at he
      exact absurd he (by simp)
  · intro hp
    exact ⟨bootstrapMessage, herr hp⟩

/-- Witness for claim C9: at a plain override the path is returned as is,
and at an empty environment with no binary bootstrap throws the message. -/
theorem bootstrap_error_iff_no_path_witness :
    bootstrap stOverridePlain = Except.ok "/custom/server" ∧
    bootstrap stNoBinary =
      Except.error "fluent-bit-language-server is not available." :=
  ⟨(bootstrap_error_iff_no_path stOverridePlain).2.1 "/custom/server" (by decide),
   (bootstrap_error_iff_no_path stNoBinary).2.2 (by decide)⟩

/-- Claim C8: deactivate with the client variable never assigned returns
the JS undefined immediately, issues no stop call, and (being total)
raises nothing. -/
theorem deactivate_never_started_noop :
    deactivate none = (none, []) := rfl

/-- Claim C2 counterexample: activate builds a session configuration
unconditionally, without consulting the resolver. With no override and no
bundled binary the resolution outcome is NotAvailable, yet a session
command is constructed; and with a Found resolution of a custom path the
constructed command differs from the resolved path. -/
theorem session_ignores_resolution :
    (resolveOutcome stNoBinary = ResolvedServerLocation.NotAvailable ∧
      (activate stNoBinary).command = defaultCommand) ∧
    (resolveOutcome stOverridePlain = ResolvedServerLocation.Found "/custom/server" ∧
      (activate stOverridePlain).command ≠ "/custom/server") := by
  refine ⟨⟨by decide, rfl⟩, ⟨by decide, by decide⟩⟩

/-- Claim C2 amended: the session command is built from SERVER_PATH alone
(value when truthy, fallback literal otherwise): it is invariant under
every change of state that keeps SERVER_PATH fixed, in particular under
every resolution outcome, and it is never empty. -/
theorem activate_command_from_server_path_only (s t : SystemState)
    (h : s.env "SERVER_PATH" = t.env "SERVER_PATH") :
    (activate s).command = (activate t).command ∧
    (activate s).command ≠ "" := by
  constructor
  · simp only [activate, h]
  · cases hv : s.env "SERVER_PATH" with
    | none =>
      have hc : (activate s).command = defaultCommand := by
        simp [activate, hv]
      rw [hc]
      decide
    | some v =>
      by_cases hve : v = ""
      · have hc : (activate s).command = defaultCommand := by
          simp [activate, hv, hve]
        rw [hc]
        decide
      · have hc : (activate s).command = v := by
          simp [activate, hv, hve]
        rw [hc]
        exact hve

/-- Witness for the amended claim C2: two states differing in override and
bundled-binary facts but agreeing on SERVER_PATH get the same command. -/
theorem activate_command_from_server_path_only_witness :
    (activate stNoBinary).command = (activate stBundledPresent).command ∧
    (activate stNoBinary).command ≠ "" :=
  activate_command_from_server_path_only stNoBinary stBundledPresent rfl

/-- Claim C4 counterexample: an inherited RUST_LOG value does not survive
the merge: the run-profile environment rebinds it to debug. -/
theorem run_env_overwrites_rust_log :
    stRustLog.env "RUST_LOG" = some "info" ∧
    (activate stRustLog).runEnv "RUST_LOG" = some "debug" ∧
    (activate stRustLog).runEnv "RUST_LOG" ≠ stRustLog.env "RUST_LOG" := by
  refine ⟨by decide, by decide, by decide⟩

/-- Claim C4 amended: the merge is a pass-through for every variable other
than RUST_LOG, and RUST_LOG is bound to debug regardless of any inherited
value. -/
theorem run_env_preserves_other_vars (s : SystemState) (k : String)
    (h : k ≠ "RUST_LOG") :
    (activate s).runEnv k = s.env k ∧
    (activate s).runEnv "RUST_LOG" = some "debug" := by
  constructor
  · simp [activate, mergedEnv, h]
  · simp [activate, mergedEnv]

/-- Witness for the amended claim C4 at the variable PATH. -/
theorem run_env_preserves_other_vars_witness :
    (activate stRustLog).runEnv "PATH" = stRustLog.env "PATH" ∧
    (activate stRustLog).runEnv "RUST_LOG" = some "debug" :=
  run_env_preserves_other_vars stRustLog "PATH" (by decide)

/-- Claim C6: the selector of the session configuration is the single
filter (scheme file, language fluent-bit), with no glob-pattern component
and no plaintext rule, and a document whose language identifier is not
fluent-bit is never matched, whatever the glob semantics. -/
theorem selector_strictly_fluent_bit (s : SystemState)
    (glob : String → String → Bool) (d : TextDocument)
    (h : d.languageId ≠ "fluent-bit") :
    (activate s).selector.length = 1 ∧
    (∀ f ∈ (activate s).selector,
      f.scheme = some "file" ∧ f.language = some "fluent-bit" ∧
      f.pattern = none) ∧
    selectorMatches glob (activate s).selector d = false := by
  have hsel : (activate s).selector = [fluentBitFilter] := rfl
  refine ⟨by rw [hsel]; rfl, ?_, ?_⟩
  · intro f hf
    rw [hsel] at hf
    have hf2 : f = fluentBitFilter := by simpa using hf
    rw [hf2]
    exact ⟨rfl, rfl, rfl⟩
  · rw [hsel]
    simp only [selectorMatches, List.any_cons, List.any_nil, Bool.or_false]
    simp only [filterMatches, fluentBitFilter]
    simp [Ne.symm h]

/-- Witness for claim C6 at a plaintext document and a glob oracle that
matches everything. -/
theorem selector_strictly_fluent_bit_witness :
    selectorMatches (fun _ _ => true) (activate stNoBinary).selector
      ⟨"file", "plaintext", "/a.conf"⟩ = false :=
  (selector_strictly_fluent_bit stNoBinary (fun _ _ => true)
    ⟨"file", "plaintext", "/a.conf"⟩ (by decide)).2.2

/-- Claim C7 counterexample: starting from a state with a registered
hints provider, the configuration-change handler leaves no provider
registered: there is no re-registration. -/
theorem on_config_change_leaves_no_provider :
    (onConfigChange hintsRegistered).hintsProvider = none ∧
    (onConfigChange hintsRegistered).hintsProvider.isSome = false := by
  refine ⟨rfl, rfl⟩

/-- Claim C7 amended: on every configuration-change event the coordinator
disposes the registered provider (if any) and the update-event emitter and
registers nothing: afterwards no hints provider is registered. -/
theorem on_config_change_disposes_only (st : HintsState) :
    (onConfigChange st).hintsProvider = none ∧
    (onConfigChange st).emitterDisposed = true ∧
    (onConfigChange st).disposedProviders =
      st.disposedProviders ++ st.hintsProvider.toList := by
  refine ⟨rfl, rfl, ?_⟩
  unfold onConfigChange hintsDispose
  cases st.hintsProvider <;> simp
